import Mathlib

/-!
A shallow embedding of the Theia plugin-ext debug bridge, covering:

* DebugExtImpl, the plugin-side debug service (sessions by sessionId,
  contributions by contributionId, and the RPC entry points whose source
  names carry a leading dollar sign);
* DebugMainImpl, the browser-side counterpart (customRequest dispatch,
  breakpoint translation, and the onDidChangeMarkers relay);
* PluginDebugAdapterContribution, the per-platform executable resolution
  and the schema and snippet accessors.

TypeScript maps become association lists holding one entry per key,
promises become Except values (a rejected promise is an error value), and
the outcomes of calls into collaborators living outside the embedded
files (command registry, connection manager, session start, the host
session manager and breakpoint store) are passed in as explicit
parameters or modelled from the specification where noted.  JavaScript
truthiness on strings (the empty string is falsy) and on optional values
is modelled explicitly where the source relies on it.
-/

/-- An untyped JavaScript value travelling over the RPC boundary. -/
inductive JsVal
  | undefined
  | str (s : String)
  | num (n : Int)
  | obj (tag : Nat)
deriving DecidableEq

/-- Errors thrown by the embedded code.  Each constructor stands for one
family of throw sites: unknown contribution or session ids, the two
executable-resolution failures, TypeError for a runtime type fault; the
thrown constructor models an arbitrary error raised by an external
collaborator and propagated unchanged. -/
inductive JsError
  | notFound
  | notConfigured
  | unsupportedExecutable
  | typeError
  | thrown (tag : Nat)
deriving DecidableEq

/-- Lookup in an association list, first match wins (Map.get). -/
def mapGet {α : Type} : List (String × α) → String → Option α
  | [], _ => none
  | e :: rest, k => if e.1 = k then some e.2 else mapGet rest k

/-- Removal of every entry of a key (Map.delete; the lists built here hold
at most one entry per key). -/
def mapDelete {α : Type} : List (String × α) → String → List (String × α)
  | [], _ => []
  | e :: rest, k => if e.1 = k then mapDelete rest k else e :: mapDelete rest k

/-- Insertion (Map.set): the new binding replaces any previous one. -/
def mapSet {α : Type} (m : List (String × α)) (k : String) (v : α) : List (String × α) :=
  (k, v) :: mapDelete m k

/-- Minimal model of the vscode-uri URI objects exchanged on the wire:
parse wraps the string, revive is the identity on already-parsed values,
and toStr returns the underlying string. -/
structure Uri where
  value : String
deriving DecidableEq

def Uri.parse (s : String) : Uri := ⟨s⟩

def Uri.revive (u : Uri) : Uri := u

def Uri.toStr (u : Uri) : String := u.value

/-- Splits a character list at every slash (helper for the path.join
model). -/
def splitOnSlashAux : List Char → List Char → List String
  | [], cur => [String.mk cur.reverse]
  | c :: rest, cur =>
    if c = '/' then String.mk cur.reverse :: splitOnSlashAux rest []
    else splitOnSlashAux rest (c :: cur)

/-- Splits a string at every slash. -/
def splitOnSlash (s : String) : List String := splitOnSlashAux s.data []

/-- True when the first character of s is c. -/
def startsWithChar (s : String) (c : Char) : Bool :=
  match s.data with
  | [] => false
  | d :: _ => d = c

/-- True when s begins with the local-directory marker "./". -/
def startsWithDotSlash (s : String) : Bool :=
  match s.data with
  | c1 :: c2 :: _ => c1 = '.' && c2 = '/'
  | _ => false

/-- Joins normalized path components with slashes. -/
def joinParts : List String → String
  | [] => ""
  | [p] => p
  | p :: rest => p ++ "/" ++ joinParts rest

/-- One step of path normalization: a ".." component pops the previous
component when one is available. -/
def pathNormStep (acc : List String) (p : String) : List String :=
  if p = ".." then
    match acc.getLast? with
    | none => [p]
    | some q => if q = ".." then acc ++ [p] else acc.dropLast
  else acc ++ [p]

/-- Model of the path.join function of Node on two POSIX segments:
concatenate, drop empty and "." components, resolve "..", and keep the
absolute prefix of the first non-empty argument.  For example
pathJoin "" "c" = "c", pathJoin "/p" "c" = "/p/c" and
pathJoin "/p" "./r" = "/p/r". -/
def pathJoin (a b : String) : String :=
  let isAbs := if a = "" then startsWithChar b '/' else startsWithChar a '/'
  let parts := (splitOnSlash a ++ splitOnSlash b).filter fun p => !(p == "") && !(p == ".")
  let norm := parts.foldl pathNormStep []
  let body := joinParts norm
  if isAbs then "/" ++ body
  else if body = "" then "." else body

/-- JavaScript a || b for optional strings: undefined and the empty string
are falsy. -/
def jsOrStr : Option String → Option String → Option String
  | some s, b => if s = "" then b else some s
  | none, b => b

/-- JavaScript a || b for optional arrays: every array object is truthy. -/
def jsOrArr : Option (List String) → Option (List String) → Option (List String)
  | some l, _ => some l
  | none, b => b

/-- JavaScript a || b for optional records: every object is truthy. -/
def jsOrObj {α : Type} : Option α → Option α → Option α
  | some a, _ => some a
  | none, b => b

/-- Opaque stand-in for IJSONSchema documents. -/
structure IJSONSchema where
  tag : Nat
deriving DecidableEq

/-- Opaque stand-in for IJSONSchemaSnippet documents. -/
structure IJSONSchemaSnippet where
  tag : Nat
deriving DecidableEq

/-- Per-platform executable record of a contributed debugger
(PlatformSpecificAdapterContribution). -/
structure PlatformSpecificAdapterContribution where
  program : Option String := none
  args : Option (List String) := none
  runtime : Option String := none
  runtimeArgs : Option (List String) := none
deriving DecidableEq

/-- Package metadata of a contributed debugger
(PluginPackageDebuggersContribution). -/
structure PluginPackageDebuggersContribution where
  label : Option String := none
  program : Option String := none
  args : Option (List String) := none
  runtime : Option String := none
  runtimeArgs : Option (List String) := none
  win : Option PlatformSpecificAdapterContribution := none
  winx86 : Option PlatformSpecificAdapterContribution := none
  windows : Option PlatformSpecificAdapterContribution := none
  osx : Option PlatformSpecificAdapterContribution := none
  linux : Option PlatformSpecificAdapterContribution := none
  configurationSnippets : Option (List IJSONSchemaSnippet) := none
  languages : Option (List String) := none
  adapterExecutableCommand : Option String := none
deriving DecidableEq

/-- The ambient operating system together with, on Windows, whether the
environment variable PROCESSOR_ARCHITEW6432 is present in process.env
(it is set exactly for a 32-bit process running on a 64-bit OS). -/
inductive HostPlatform
  | windows (processorArchitew6432 : Bool)
  | osx
  | linux
deriving DecidableEq

/-- Embedding of PluginDebugAdapterContribution.toPlatformInfo.  On
Windows the winx86 record is consulted exactly when the environment
marker is absent: the source guards the winx86 branch with a negated
hasOwnProperty check. -/
def PluginDebugAdapterContribution.toPlatformInfo
    (platform : HostPlatform) (executable : PluginPackageDebuggersContribution) :
    Option PlatformSpecificAdapterContribution :=
  match platform with
  | .windows marker =>
    if !marker then
      jsOrObj (jsOrObj executable.winx86 executable.win) executable.windows
    else
      jsOrObj executable.win executable.windows
  | .osx => executable.osx
  | .linux => executable.linux

/-- The program resolved by provideDebugAdapterExecutable before the join
with the plugin root: info && info.program || packageContribution.program. -/
def resolvedProgram (platform : HostPlatform) (pc : PluginPackageDebuggersContribution) :
    Option String :=
  jsOrStr ((PluginDebugAdapterContribution.toPlatformInfo platform pc).bind fun i => i.program)
    pc.program

/-- The program arguments: info && info.args || packageContribution.args || []. -/
def resolvedProgramArgs (platform : HostPlatform) (pc : PluginPackageDebuggersContribution) :
    List String :=
  (jsOrArr ((PluginDebugAdapterContribution.toPlatformInfo platform pc).bind fun i => i.args)
    pc.args).getD []

/-- The runtime, joined to the plugin root when it begins with "./"
(a present but empty runtime is falsy and skips the join). -/
def resolvedRuntime (platform : HostPlatform) (pc : PluginPackageDebuggersContribution)
    (pluginPath : String) : Option String :=
  match jsOrStr
      ((PluginDebugAdapterContribution.toPlatformInfo platform pc).bind fun i => i.runtime)
      pc.runtime with
  | some r => if startsWithDotSlash r then some (pathJoin pluginPath r) else some r
  | none => none

/-- The runtime arguments:
info && info.runtimeArgs || packageContribution.runtimeArgs || []. -/
def resolvedRuntimeArgs (platform : HostPlatform) (pc : PluginPackageDebuggersContribution) :
    List String :=
  (jsOrArr ((PluginDebugAdapterContribution.toPlatformInfo platform pc).bind fun i => i.runtimeArgs)
    pc.runtimeArgs).getD []

/-- Resolved executable descriptor: either a command or a modulePath shape. -/
structure DebugAdapterExecutable where
  command : Option String := none
  modulePath : Option String := none
  args : List String := []
deriving DecidableEq

/-- Embedding of PluginDebugAdapterContribution.provideDebugAdapterExecutable.
The program is always joined to the plugin root; a runtime beginning with
"./" is joined as well; the command is the runtime when one is present and
truthy, and the joined program otherwise; the argument list prepends the
runtime arguments and the joined program exactly when a runtime is
present. -/
def PluginDebugAdapterContribution.provideDebugAdapterExecutable
    (platform : HostPlatform) (pc : PluginPackageDebuggersContribution) (pluginPath : String) :
    Except JsError DebugAdapterExecutable :=
  match resolvedProgram platform pc with
  | none => .error .notConfigured
  | some prog =>
    if prog = "" then .error .notConfigured
    else
      let program := pathJoin pluginPath prog
      let programArgs := resolvedProgramArgs platform pc
      let runtimeArgs := resolvedRuntimeArgs platform pc
      match resolvedRuntime platform pc pluginPath with
      | some r =>
        if r = "" then .ok { command := some program, args := programArgs }
        else .ok { command := some r, args := runtimeArgs ++ [program] ++ programArgs }
      | none => .ok { command := some program, args := programArgs }

/-- Embedding of PluginDebugAdapterContribution.getSchemaAttributes as
written: the source returns the empty list when the snippet table is
defined (any object is truthy) and otherwise falls through to
Object.keys(undefined), which raises a TypeError. -/
def PluginDebugAdapterContribution.getSchemaAttributes
    (pc : PluginPackageDebuggersContribution) : Except JsError (List IJSONSchema) :=
  match pc.configurationSnippets with
  | some _ => .ok []
  | none => .error .typeError

/-- The parts of a debug configuration the embedded code reads. -/
structure DebugConfiguration where
  type : String
  name : String
deriving DecidableEq

/-- How the adapter subprocess was started by startDebugAdapter. -/
inductive AdapterLaunch
  | spawned (command : String) (args : List String)
  | forked (modulePath : String) (args : List String)
deriving DecidableEq

/-- The duplex channel returned by startDebugAdapter; the stdio streams
and the dispose operation are abstracted into the launch record. -/
structure CommunicationProvider where
  launch : AdapterLaunch
deriving DecidableEq

/-- Embedding of startDebugAdapter: a command shape is spawned, a
modulePath shape is forked, anything else is rejected. -/
def startDebugAdapter (executable : DebugAdapterExecutable) :
    Except JsError CommunicationProvider :=
  match executable.command with
  | some command => .ok { launch := .spawned command executable.args }
  | none =>
    match executable.modulePath with
    | some modulePath => .ok { launch := .forked modulePath executable.args }
    | none => .error .unsupportedExecutable

/-- One host-bound customRequest RPC call, recorded by the values the
three host-side parameters (sessionId, command, args) receive. -/
structure CustomRequestCall where
  sessionId : JsVal
  command : JsVal
  args : JsVal
deriving DecidableEq

/-- Embedding of the forwarder stored in each session by the
createDebugSession entry point: the source closure is
(command, args) => proxy.customRequest(command, args), a two-argument
call into the three-parameter host signature, so the host parameter
sessionId receives the command string, the host parameter command
receives args, and the host parameter args stays undefined. -/
def customRequestForwarder (command : String) (args : JsVal) : CustomRequestCall :=
  { sessionId := JsVal.str command, command := args, args := JsVal.undefined }

/-- Plugin-side session value (PluginDebugSession). -/
structure PluginDebugSession where
  id : String
  configuration : DebugConfiguration
  communicationProvider : CommunicationProvider
  customRequest : String → JsVal → CustomRequestCall

/-- Plugin-side view of a DebugAdapterContribution as consumed by
DebugExtImpl: each optional capability is none when the provider does not
implement it, and otherwise carries the settled outcome of awaiting it
(an error value models a rejected promise). -/
structure DebugAdapterContribution where
  languages : Option (Except JsError (Option (List String))) := none
  getSchemaAttributes : Option (Except JsError (List IJSONSchema)) := none
  getConfigurationSnippets : Option (Except JsError (List IJSONSchemaSnippet)) := none
  provideDebugConfigurations : Option (Except JsError (Option (List DebugConfiguration))) := none
  resolveDebugConfiguration :
    Option (DebugConfiguration → Option String → Except JsError (Option DebugConfiguration)) := none
  provideDebugAdapterExecutable :
    Option (DebugConfiguration → Except JsError (Option DebugAdapterExecutable)) := none

/-- Editor range carried by a wire breakpoint location. -/
structure Range where
  startLineNumber : Nat
  startColumn : Nat
  endLineNumber : Nat
  endColumn : Nat
deriving DecidableEq

/-- Wire breakpoint location. -/
structure Location where
  uri : Uri
  range : Range
deriving DecidableEq

/-- Wire form of a breakpoint (the api/model Breakpoint). -/
structure Breakpoint where
  enabled : Bool
  condition : Option String := none
  hitCondition : Option String := none
  logMessage : Option String := none
  location : Option Location := none
deriving DecidableEq

/-- The raw marker data of a breakpoint in the host store. -/
structure SourceBreakpointRaw where
  line : Nat
  column : Option Nat := none
  condition : Option String := none
  hitCondition : Option String := none
  logMessage : Option String := none
deriving DecidableEq

/-- Host-side stored breakpoint (SourceBreakpoint). -/
structure SourceBreakpoint where
  uri : String
  enabled : Bool
  raw : SourceBreakpointRaw
deriving DecidableEq

/-- Host-internal breakpoint object; of the DebugBreakpoint constructor
arguments only the origin data matters here, the injected services
(label provider, managers, current session) are omitted. -/
structure DebugBreakpoint where
  origin : SourceBreakpoint
deriving DecidableEq

/-- The per-element conversion inside
DebugMainImpl.toTheiaPluginApiBreakpoints; b.raw.column || 0 is getD 0
since an absent column and a zero column both yield 0. -/
def DebugMainImpl.wireOfSourceBreakpoint (b : SourceBreakpoint) : Breakpoint :=
  { enabled := b.enabled,
    condition := b.raw.condition,
    hitCondition := b.raw.hitCondition,
    logMessage := b.raw.logMessage,
    location := some
      { uri := Uri.parse b.uri,
        range :=
          { startLineNumber := b.raw.line, startColumn := b.raw.column.getD 0,
            endLineNumber := b.raw.line, endColumn := b.raw.column.getD 0 } } }

/-- Embedding of DebugMainImpl.toTheiaPluginApiBreakpoints. -/
def DebugMainImpl.toTheiaPluginApiBreakpoints (sourceBreakpoints : List SourceBreakpoint) :
    List Breakpoint :=
  sourceBreakpoints.map DebugMainImpl.wireOfSourceBreakpoint

/-- Embedding of DebugMainImpl.toInternalBreakpoints: the filter on a
present location followed by the non-null assertion is merged into a
filterMap over the optional location, excluding location-free wire
breakpoints. -/
def DebugMainImpl.toInternalBreakpoints (breakpoints : List Breakpoint) : List DebugBreakpoint :=
  breakpoints.filterMap fun breakpoint =>
    breakpoint.location.map fun location =>
      { origin :=
          { uri := Uri.toStr (Uri.revive location.uri),
            enabled := true,
            raw :=
              { line := location.range.startLineNumber,
                column := some location.range.startColumn,
                condition := breakpoint.condition,
                hitCondition := breakpoint.hitCondition,
                logMessage := breakpoint.logMessage } } }

/-- Response of the debug adapter to a custom DAP request. -/
structure DapResponse where
  body : JsVal
deriving DecidableEq

/-- Modelled from the spec: the host-side session manager (a host
authority outside the embedded files) owns session objects keyed by
sessionId, and sendCustomRequest relays a command to the adapter of that
session. -/
structure MainDebugSession where
  sendCustomRequest : JsVal → JsVal → DapResponse

/-- Embedding of the customRequest entry point of DebugMainImpl: look the
session up in the session manager, relay the request when found, reject
NotFound otherwise (the lookup itself is modelled from the spec since the
session manager lives outside the embedded files). -/
def DebugMainImpl.customRequest (sessions : List (String × MainDebugSession))
    (sessionId : String) (command : JsVal) (args : JsVal) : Except JsError DapResponse :=
  match mapGet sessions sessionId with
  | some session => .ok (session.sendCustomRequest command args)
  | none => .error .notFound

/-- Delivery of a recorded customRequest RPC call to DebugMainImpl: the
value in the sessionId slot is used for the lookup, and a non-string
value there matches no stored session id. -/
def dispatchCustomRequestCall (sessions : List (String × MainDebugSession))
    (call : CustomRequestCall) : Except JsError DapResponse :=
  match call.sessionId with
  | JsVal.str sid => DebugMainImpl.customRequest sessions sid call.command call.args
  | _ => .error .notFound

/-- Modelled from the spec: the breakpoint store of the host
(BreakpointManager, outside the embedded files) returns the full current
breakpoint set, or the current set restricted to one resource. -/
def breakpointStoreGet (store : List SourceBreakpoint) (uri : Option String) :
    List SourceBreakpoint :=
  match uri with
  | some u => store.filter fun b => decide (b.uri = u)
  | none => store

/-- The four arguments of one breakpointsDidChange notification. -/
structure BreakpointsDidChangeCall where
  all : List Breakpoint
  added : List Breakpoint
  removed : List Breakpoint
  changed : List Breakpoint
deriving DecidableEq

/-- Embedding of the onDidChangeMarkers handler installed by the
DebugMainImpl constructor: per marker-change notification it emits one
call carrying the full current set in wire form, empty added and removed
lists, and the current set restricted to the affected resource as
changed (the source marks the missing added and removed distinction with
a TODO). -/
def DebugMainImpl.onDidChangeMarkersHandler (store : List SourceBreakpoint) (uri : String) :
    BreakpointsDidChangeCall :=
  { all := DebugMainImpl.toTheiaPluginApiBreakpoints (breakpointStoreGet store none),
    added := [],
    removed := [],
    changed := DebugMainImpl.toTheiaPluginApiBreakpoints (breakpointStoreGet store (some uri)) }

/-- Following the claim wording (not the source): the removed part of the
delta of a marker-change batch from before to after, restricted to one
resource. -/
def specBatchRemoved (before after : List SourceBreakpoint) (uri : String) :
    List SourceBreakpoint :=
  (before.filter fun b => decide (b.uri = uri)).filter fun b => !(after.contains b)

/-- Plugin-side state of DebugExtImpl. -/
structure DebugExtState where
  debugSessions : List (String × PluginDebugSession) := []
  debugAdapterContributions : List (String × DebugAdapterContribution) := []
  packageContributions : List (String × PluginPackageDebuggersContribution) := []
  activeDebugSession : Option PluginDebugSession := none
  breakpoints : List Breakpoint := []

/-- Embedding of DebugExtImpl.registerDebugConfigurationProvider: the
fresh contribution id minted by uuid.v4 is passed in, the contribution
and the package metadata are stored under it (the outbound registration
notification carries no state and is omitted). -/
def DebugExtImpl.registerDebugConfigurationProvider (st : DebugExtState)
    (contributionId : String) (pluginContribution : DebugAdapterContribution)
    (packageContribution : PluginPackageDebuggersContribution) : DebugExtState :=
  { st with
    debugAdapterContributions :=
      mapSet st.debugAdapterContributions contributionId pluginContribution,
    packageContributions :=
      mapSet st.packageContributions contributionId packageContribution }

/-- Embedding of the disposer returned by registerDebugConfigurationProvider:
it deletes the contribution from both tables. -/
def DebugExtImpl.registrationDisposer (st : DebugExtState) (contributionId : String) :
    DebugExtState :=
  { st with
    debugAdapterContributions := mapDelete st.debugAdapterContributions contributionId,
    packageContributions := mapDelete st.packageContributions contributionId }

/-- Embedding of the getSupportedLanguages entry point of DebugExtImpl. -/
def DebugExtImpl.getSupportedLanguages (st : DebugExtState) (contributionId : String) :
    Except JsError (List String) :=
  match mapGet st.debugAdapterContributions contributionId with
  | some c =>
    match c.languages with
    | some (Except.ok v) => .ok (v.getD [])
    | some (Except.error e) => .error e
    | none => .ok []
  | none => .ok []

/-- Embedding of the getSchemaAttributes entry point of DebugExtImpl. -/
def DebugExtImpl.getSchemaAttributes (st : DebugExtState) (contributionId : String) :
    Except JsError (List IJSONSchema) :=
  match mapGet st.debugAdapterContributions contributionId with
  | some c =>
    match c.getSchemaAttributes with
    | some r => r
    | none => .ok []
  | none => .ok []

/-- Embedding of the getConfigurationSnippets entry point of DebugExtImpl. -/
def DebugExtImpl.getConfigurationSnippets (st : DebugExtState) (contributionId : String) :
    Except JsError (List IJSONSchemaSnippet) :=
  match mapGet st.debugAdapterContributions contributionId with
  | some c =>
    match c.getConfigurationSnippets with
    | some r => r
    | none => .ok []
  | none => .ok []

/-- Embedding of the provideDebugConfigurations entry point of
DebugExtImpl (the source passes undefined for the folder to the
contribution and replaces a falsy result with the empty list). -/
def DebugExtImpl.provideDebugConfigurations (st : DebugExtState) (contributionId : String)
    (folder : Option String) : Except JsError (List DebugConfiguration) :=
  match mapGet st.debugAdapterContributions contributionId with
  | some c =>
    match c.provideDebugConfigurations with
    | some (Except.error e) => .error e
    | some (Except.ok (some result)) => .ok result
    | some (Except.ok none) => .ok []
    | none => .ok []
  | none => .ok []

/-- Embedding of the resolveDebugConfigurations entry point of
DebugExtImpl. -/
def DebugExtImpl.resolveDebugConfigurations (st : DebugExtState) (contributionId : String)
    (debugConfiguration : DebugConfiguration) (folder : Option String) :
    Except JsError (Option DebugConfiguration) :=
  match mapGet st.debugAdapterContributions contributionId with
  | some c =>
    match c.resolveDebugConfiguration with
    | some resolve => resolve debugConfiguration folder
    | none => .ok none
  | none => .ok none

/-- Embedding of the executable branch of DebugExtImpl.getExecutable that
asks the contribution itself. -/
def DebugExtImpl.getExecutableFromContribution (adapterContribution : DebugAdapterContribution)
    (debugConfiguration : DebugConfiguration) : Except JsError DebugAdapterExecutable :=
  match adapterContribution.provideDebugAdapterExecutable with
  | some provide =>
    match provide debugConfiguration with
    | .error e => .error e
    | .ok (some executable) => .ok executable
    | .ok none => .error .notConfigured
  | none => .error .notConfigured

/-- Embedding of DebugExtImpl.getExecutable; the outcome of the
command-registry execution (an external collaborator) is passed in as
commandResult and only consulted when the package metadata declares an
adapterExecutableCommand. -/
def DebugExtImpl.getExecutable (commandResult : Except JsError (Option DebugAdapterExecutable))
    (packageContribution : Option PluginPackageDebuggersContribution)
    (adapterContribution : DebugAdapterContribution)
    (debugConfiguration : DebugConfiguration) : Except JsError DebugAdapterExecutable :=
  match packageContribution with
  | some pc =>
    if pc.adapterExecutableCommand.isSome then
      match commandResult with
      | .error e => .error e
      | .ok (some result) => .ok result
      | .ok none => .error .notConfigured
    else DebugExtImpl.getExecutableFromContribution adapterContribution debugConfiguration
  | none => DebugExtImpl.getExecutableFromContribution adapterContribution debugConfiguration

/-- Embedding of the createDebugSession entry point of DebugExtImpl.  The
fresh session id minted by uuid.v4 is passed in, as are the outcomes of
the two awaited external steps that follow the registry insertion: the
ensureConnection call on the connection manager and the session start.
The state is threaded so that partial effects survive a failure: the
session is stored before either step runs and is not removed on error. -/
def DebugExtImpl.createDebugSession (st : DebugExtState) (contributionId : String)
    (debugConfiguration : DebugConfiguration) (freshSessionId : String)
    (commandResult : Except JsError (Option DebugAdapterExecutable))
    (connectionResult : Except JsError Unit) (startResult : Except JsError Unit) :
    DebugExtState × Except JsError String :=
  match mapGet st.debugAdapterContributions contributionId with
  | none => (st, .error .notFound)
  | some adapterContribution =>
    match DebugExtImpl.getExecutable commandResult
        (mapGet st.packageContributions contributionId) adapterContribution debugConfiguration with
    | .error e => (st, .error e)
    | .ok executable =>
      match startDebugAdapter executable with
      | .error e => (st, .error e)
      | .ok communicationProvider =>
        let session : PluginDebugSession :=
          { id := freshSessionId, configuration := debugConfiguration,
            communicationProvider := communicationProvider,
            customRequest := customRequestForwarder }
        let st1 := { st with debugSessions := mapSet st.debugSessions freshSessionId session }
        match connectionResult with
        | .error e => (st1, .error e)
        | .ok _ =>
          match startResult with
          | .error e => (st1, .error e)
          | .ok _ => (st1, .ok freshSessionId)

/-- The observable side effects of terminateDebugSession, in execution
order. -/
inductive TerminateEffect
  | registryDelete (sessionId : String)
  | stopSession (sessionId : String)
deriving DecidableEq

/-- Embedding of the terminateDebugSession entry point of DebugExtImpl:
when the session is found it is deleted from the registry and then
stopped (the effect list records that order); an unknown id is a silent
no-op. -/
def DebugExtImpl.terminateDebugSession (st : DebugExtState) (sessionId : String) :
    DebugExtState × List TerminateEffect :=
  match mapGet st.debugSessions sessionId with
  | some debugAdapterSession =>
    ({ st with debugSessions := mapDelete st.debugSessions sessionId },
     [TerminateEffect.registryDelete sessionId,
      TerminateEffect.stopSession debugAdapterSession.id])
  | none => (st, [])

/-- Embedding of the sessionDidChange entry point of DebugExtImpl.  The
source binds the looked-up session to a local constant named like the
instance field activeDebugSession and never assigns the field, so the
returned state is unchanged; the second component is the value passed to
onDidChangeActiveDebugSessionEmitter.fire.  An empty-string id is falsy
and skips the lookup. -/
def DebugExtImpl.sessionDidChange (st : DebugExtState) (sessionId : Option String) :
    DebugExtState × Option PluginDebugSession :=
  let fired :=
    match sessionId with
    | some sid => if sid = "" then none else mapGet st.debugSessions sid
    | none => none
  (st, fired)

/-- The breakpoint change event fired to plugin listeners. -/
structure BreakpointsChangeEvent where
  added : List Breakpoint
  removed : List Breakpoint
  changed : List Breakpoint
deriving DecidableEq

/-- Embedding of the breakpointsDidChange entry point of DebugExtImpl:
the full snapshot replaces the stored breakpoint list and the delta is
fired to listeners. -/
def DebugExtImpl.breakpointsDidChange (st : DebugExtState)
    (all added removed changed : List Breakpoint) : DebugExtState × BreakpointsChangeEvent :=
  ({ st with breakpoints := all }, { added := added, removed := removed, changed := changed })

/-! Concrete sample data used to instantiate the theorems below. -/

/-- A sample debug configuration. -/
def sampleConfig : DebugConfiguration := { type := "node", name := "Launch" }

/-- A sample resolved executable descriptor. -/
def sampleExecutable : DebugAdapterExecutable :=
  { command := some "node", args := ["/adapter.js"] }

/-- A contribution whose provider resolves the sample executable. -/
def sampleExecutableContribution : DebugAdapterContribution :=
  { provideDebugAdapterExecutable := some fun _ => .ok (some sampleExecutable) }

/-- A state holding the sample contribution under the id cid. -/
def sampleExtState : DebugExtState :=
  { debugAdapterContributions := [("cid", sampleExecutableContribution)] }

/-- A running sample session with id s1. -/
def sampleSession : PluginDebugSession :=
  { id := "s1", configuration := sampleConfig,
    communicationProvider := { launch := .spawned "node" ["/adapter.js"] },
    customRequest := customRequestForwarder }

/-- A state whose session registry holds the sample session. -/
def sessionRegistryState : DebugExtState := { debugSessions := [("s1", sampleSession)] }

/-- A host-side session answering every custom request. -/
def sampleMainSession : MainDebugSession :=
  { sendCustomRequest := fun _ _ => { body := JsVal.obj 1 } }

/-- The empty plugin-side state. -/
def emptyExtState : DebugExtState := {}

/-- Empty package metadata. -/
def samplePackage : PluginPackageDebuggersContribution := {}

/-- A sample snippet document. -/
def sampleSnippet : IJSONSchemaSnippet := { tag := 0 }

/-- The result of a fully successful createDebugSession on the sample
state. -/
def c1CreateResult : DebugExtState × Except JsError String :=
  DebugExtImpl.createDebugSession sampleExtState "cid" sampleConfig "sid-1"
    (Except.ok none) (Except.ok ()) (Except.ok ())

/-- The platform metadata of the claim example: three platform records,
each with only a program. -/
def c3Pc : PluginPackageDebuggersContribution :=
  { win := some { program := some "a" },
    osx := some { program := some "b" },
    linux := some { program := some "c" } }

/-- Metadata with an unqualified program and a "./" runtime. -/
def c3RuntimePc : PluginPackageDebuggersContribution :=
  { program := some "prog", runtime := some "./r" }

/-- A winx86 platform record. -/
def c4X86Record : PlatformSpecificAdapterContribution := { program := some "x86.exe" }

/-- A win platform record. -/
def c4WinRecord : PlatformSpecificAdapterContribution := { program := some "win.exe" }

/-- Metadata carrying both a winx86 and a win record. -/
def c4Pc : PluginPackageDebuggersContribution :=
  { win := some c4WinRecord, winx86 := some c4X86Record }

/-- A stored breakpoint at file:///a used for the marker-batch example. -/
def c7Removed : SourceBreakpoint :=
  { uri := "file:///a", enabled := true,
    raw := { line := 5, column := some 0, condition := some "x" } }

/-! Helper lemmas about the registry model. -/

theorem mapGet_delete_self {α : Type} (m : List (String × α)) (k : String) :
    mapGet (mapDelete m k) k = none := by
  induction m with
  | nil => rfl
  | cons e rest ih =>
    by_cases h : e.1 = k
    · simp [mapDelete, h, ih]
    · simp [mapDelete, h, mapGet, ih]

theorem mapGet_set_self {α : Type} (m : List (String × α)) (k : String) (v : α) :
    mapGet (mapSet m k v) k = some v := by
  simp [mapSet, mapGet]

theorem terminate_removes (st : DebugExtState) (sid : String) :
    mapGet (DebugExtImpl.terminateDebugSession st sid).1.debugSessions sid = none := by
  cases h : mapGet st.debugSessions sid with
  | some s => simp [DebugExtImpl.terminateDebugSession, h, mapGet_delete_self]
  | none => simp [DebugExtImpl.terminateDebugSession, h]

/-! Claim theorems. -/

/-- C1: evaluation of the code at the failing input.  A session created
by createDebugSession stores the forwarder that sends the command string
in the sessionId slot of the customRequest RPC call (and args in the
command slot), so with the host session table holding exactly the
created session id the host lookup uses the command string and rejects
NotFound instead of returning the adapter response. -/
theorem c1_forwarder_code_eval :
    c1CreateResult.2 = Except.ok "sid-1"
    ∧ (mapGet c1CreateResult.1.debugSessions "sid-1").map
        (fun s => s.customRequest "evaluate" (JsVal.obj 0)) =
      some { sessionId := JsVal.str "evaluate", command := JsVal.obj 0, args := JsVal.undefined }
    ∧ (mapGet c1CreateResult.1.debugSessions "sid-1").map
        (fun s => dispatchCustomRequestCall [("sid-1", sampleMainSession)]
          (s.customRequest "evaluate" (JsVal.obj 0))) =
      some (Except.error JsError.notFound)
    ∧ (mapGet c1CreateResult.1.debugSessions "sid-1").map (fun s => JsVal.str s.id) =
      some (JsVal.str "sid-1")
    ∧ JsVal.str "evaluate" ≠ JsVal.str "sid-1" :=
  ⟨rfl, rfl, rfl, rfl, by decide⟩

/-- C2: evaluation of the code at the failing inputs.  getSchemaAttributes
returns the empty list whenever the snippet table is defined, even when
the table is non-empty, and raises a TypeError (Object.keys of
undefined) when the table is undefined — the inverse of the claimed
contract. -/
theorem c2_getSchemaAttributes_code_eval :
    PluginDebugAdapterContribution.getSchemaAttributes { configurationSnippets := none } =
      Except.error JsError.typeError
    ∧ PluginDebugAdapterContribution.getSchemaAttributes
        { configurationSnippets := some [sampleSnippet] } = Except.ok []
    ∧ ({ configurationSnippets := some [sampleSnippet] } :
        PluginPackageDebuggersContribution).configurationSnippets ≠ some [] :=
  ⟨rfl, rfl, by decide⟩

/-- C3: counterexample.  With plugin root "/p" the example metadata on
platform linux resolves to the command "/p/c" (the program is joined to
the plugin root), not to the bare program "c" the claim states. -/
theorem c3_command_counterexample :
    PluginDebugAdapterContribution.provideDebugAdapterExecutable HostPlatform.linux c3Pc "/p" =
      Except.ok { command := some "/p/c", args := [] }
    ∧ ("/p/c" : String) ≠ "c" :=
  ⟨rfl, by decide⟩

/-- C3 (amended): the command equals the runtime when one is resolved
(a runtime beginning with "./" having been joined to the plugin root)
and otherwise equals the program joined to the plugin root; the argument
list is runtimeArgs ++ [joined program] ++ programArgs when a runtime is
present and programArgs alone otherwise.  The example metadata on linux
resolves to command pathJoin pluginPath "c", which is "c" exactly when
the plugin root is empty; and a runtime "./r" with plugin root "/p"
resolves to the command "/p/r" on every platform. -/
theorem c3_amended_executable_resolution :
    (∀ (platform : HostPlatform) (pc : PluginPackageDebuggersContribution)
        (pluginPath prog : String),
        resolvedProgram platform pc = some prog → prog ≠ "" →
        ((∀ r, resolvedRuntime platform pc pluginPath = some r → r ≠ "" →
            PluginDebugAdapterContribution.provideDebugAdapterExecutable platform pc pluginPath =
              Except.ok { command := some r,
                          args := resolvedRuntimeArgs platform pc ++
                            [pathJoin pluginPath prog] ++ resolvedProgramArgs platform pc })
          ∧ (resolvedRuntime platform pc pluginPath = none →
            PluginDebugAdapterContribution.provideDebugAdapterExecutable platform pc pluginPath =
              Except.ok { command := some (pathJoin pluginPath prog),
                          args := resolvedProgramArgs platform pc })))
    ∧ (∀ pluginPath,
        PluginDebugAdapterContribution.provideDebugAdapterExecutable HostPlatform.linux c3Pc
          pluginPath = Except.ok { command := some (pathJoin pluginPath "c"), args := [] })
    ∧ pathJoin "" "c" = "c"
    ∧ (∀ platform,
        PluginDebugAdapterContribution.provideDebugAdapterExecutable platform c3RuntimePc "/p" =
          Except.ok { command := some "/p/r", args := ["/p/prog"] }) := by
  refine ⟨?_, fun _ => rfl, rfl, ?_⟩
  · intro platform pc pluginPath prog hprog hne
    constructor
    · intro r hr hrne
      simp [PluginDebugAdapterContribution.provideDebugAdapterExecutable, hprog, hr, hne, hrne]
    · intro hr
      simp [PluginDebugAdapterContribution.provideDebugAdapterExecutable, hprog, hr, hne]
  · intro platform
    cases platform with
    | windows marker => cases marker <;> rfl
    | osx => rfl
    | linux => rfl

/-- C3 (amended) witness: the amended theorem applied to the runtime
example at concrete inputs. -/
theorem c3_amended_witness :
    PluginDebugAdapterContribution.provideDebugAdapterExecutable HostPlatform.linux c3RuntimePc
      "/p" = Except.ok { command := some "/p/r", args := ["/p/prog"] } :=
  ((c3_amended_executable_resolution.1 HostPlatform.linux c3RuntimePc "/p" "prog" rfl
    (by decide)).1 "/p/r" rfl (by decide))

/-- C4: counterexample.  With both records present the code selects the
win record when the environment marker is present and the winx86 record
when it is absent — the inverse of the claimed preference. -/
theorem c4_winx86_counterexample :
    PluginDebugAdapterContribution.toPlatformInfo (HostPlatform.windows true) c4Pc =
      some c4WinRecord
    ∧ PluginDebugAdapterContribution.toPlatformInfo (HostPlatform.windows false) c4Pc =
      some c4X86Record
    ∧ c4WinRecord ≠ c4X86Record :=
  ⟨rfl, rfl, by decide⟩

/-- C4 (amended): on Windows the winx86 record is preferred over the
win/windows default exactly when the environment marker is absent; when
the marker is present the win record (falling back to windows) is
selected and winx86 is never consulted. -/
theorem c4_amended_platform_selection :
    ∀ pc : PluginPackageDebuggersContribution,
      PluginDebugAdapterContribution.toPlatformInfo (HostPlatform.windows true) pc =
        jsOrObj pc.win pc.windows
      ∧ (∀ r, pc.winx86 = some r →
        PluginDebugAdapterContribution.toPlatformInfo (HostPlatform.windows false) pc = some r)
      ∧ (pc.winx86 = none →
        PluginDebugAdapterContribution.toPlatformInfo (HostPlatform.windows false) pc =
          jsOrObj pc.win pc.windows) := by
  intro pc
  refine ⟨rfl, ?_, ?_⟩
  · intro r h
    simp [PluginDebugAdapterContribution.toPlatformInfo, h, jsOrObj]
  · intro h
    simp [PluginDebugAdapterContribution.toPlatformInfo, h, jsOrObj]

/-- C4 (amended) witness: with the marker absent the winx86 record wins. -/
theorem c4_amended_witness :
    PluginDebugAdapterContribution.toPlatformInfo (HostPlatform.windows false) c4Pc =
      some c4X86Record :=
  (c4_amended_platform_selection c4Pc).2.1 c4X86Record rfl

/-- C5: terminateDebugSession deletes the session from the registry
before the stop effect runs (the effect list records the order), is a
silent no-op on an unknown id leaving the state unchanged, always leaves
the id unresolvable afterwards, is idempotent, and removes the id minted
by an immediately preceding createDebugSession. -/
theorem c5_terminate_session :
    ∀ (st : DebugExtState) (sessionId : String),
      (∀ s, mapGet st.debugSessions sessionId = some s →
        DebugExtImpl.terminateDebugSession st sessionId =
          ({ st with debugSessions := mapDelete st.debugSessions sessionId },
           [TerminateEffect.registryDelete sessionId, TerminateEffect.stopSession s.id]))
      ∧ (mapGet st.debugSessions sessionId = none →
        DebugExtImpl.terminateDebugSession st sessionId = (st, []))
      ∧ mapGet (DebugExtImpl.terminateDebugSession st sessionId).1.debugSessions sessionId = none
      ∧ DebugExtImpl.terminateDebugSession
          (DebugExtImpl.terminateDebugSession st sessionId).1 sessionId =
          ((DebugExtImpl.terminateDebugSession st sessionId).1, [])
      ∧ ∀ (contributionId : String) (cfg : DebugConfiguration) (freshId : String)
          (commandResult : Except JsError (Option DebugAdapterExecutable))
          (connectionResult startResult : Except JsError Unit),
          mapGet (DebugExtImpl.terminateDebugSession
            (DebugExtImpl.createDebugSession st contributionId cfg freshId commandResult
              connectionResult startResult).1 freshId).1.debugSessions freshId = none := by
  intro st sessionId
  refine ⟨?_, ?_, terminate_removes st sessionId, ?_, ?_⟩
  · intro s hs
    simp [DebugExtImpl.terminateDebugSession, hs]
  · intro h
    simp [DebugExtImpl.terminateDebugSession, h]
  · have h := terminate_removes st sessionId
    set st2 := (DebugExtImpl.terminateDebugSession st sessionId).1 with hst2
    simp [DebugExtImpl.terminateDebugSession, h]
  · intro contributionId cfg freshId commandResult connectionResult startResult
    exact terminate_removes _ freshId

/-- C5 witness: the theorem applied to the concrete registry holding the
sample session, exercising both the found and the unknown branch. -/
theorem c5_terminate_witness :
    DebugExtImpl.terminateDebugSession sessionRegistryState "s1" =
      ({ sessionRegistryState with
          debugSessions := mapDelete sessionRegistryState.debugSessions "s1" },
       [TerminateEffect.registryDelete "s1", TerminateEffect.stopSession "s1"])
    ∧ DebugExtImpl.terminateDebugSession sessionRegistryState "zz" =
      (sessionRegistryState, []) :=
  ⟨(c5_terminate_session sessionRegistryState "s1").1 sampleSession rfl,
   (c5_terminate_session sessionRegistryState "zz").2.1 rfl⟩

/-- C6: for a contribution id absent from the contribution table — never
registered or already removed by its registration disposer — each of the
five capability queries returns the empty result (or none for resolve)
as a successful value, and the disposer does make the id absent. -/
theorem c6_absent_contribution_queries :
    ∀ (st : DebugExtState) (contributionId : String) (folder : Option String)
      (cfg : DebugConfiguration),
      (mapGet st.debugAdapterContributions contributionId = none →
        DebugExtImpl.getSupportedLanguages st contributionId = Except.ok []
        ∧ DebugExtImpl.getSchemaAttributes st contributionId = Except.ok []
        ∧ DebugExtImpl.getConfigurationSnippets st contributionId = Except.ok []
        ∧ DebugExtImpl.provideDebugConfigurations st contributionId folder = Except.ok []
        ∧ DebugExtImpl.resolveDebugConfigurations st contributionId cfg folder = Except.ok none)
      ∧ ∀ (c : DebugAdapterContribution) (pc : PluginPackageDebuggersContribution),
          mapGet (DebugExtImpl.registrationDisposer
            (DebugExtImpl.registerDebugConfigurationProvider st contributionId c pc)
            contributionId).debugAdapterContributions contributionId = none := by
  intro st contributionId folder cfg
  constructor
  · intro h
    refine ⟨?_, ?_, ?_, ?_, ?_⟩ <;>
      simp [DebugExtImpl.getSupportedLanguages, DebugExtImpl.getSchemaAttributes,
        DebugExtImpl.getConfigurationSnippets, DebugExtImpl.provideDebugConfigurations,
        DebugExtImpl.resolveDebugConfigurations, h]
  · intro c pc
    exact mapGet_delete_self _ _

/-- C6 witness: the theorem applied to the empty state and to a
register-then-dispose round trip at concrete inputs. -/
theorem c6_absent_queries_witness :
    DebugExtImpl.getSupportedLanguages emptyExtState "ghost" = Except.ok []
    ∧ DebugExtImpl.resolveDebugConfigurations emptyExtState "ghost" sampleConfig none =
      Except.ok none
    ∧ mapGet (DebugExtImpl.registrationDisposer
        (DebugExtImpl.registerDebugConfigurationProvider emptyExtState "cid"
          sampleExecutableContribution samplePackage) "cid").debugAdapterContributions "cid" =
      none := by
  have h := c6_absent_contribution_queries emptyExtState "ghost" none sampleConfig
  exact ⟨(h.1 rfl).1, (h.1 rfl).2.2.2.2, h.2 sampleExecutableContribution samplePackage⟩

/-- C7: counterexample.  A marker-change batch that removes the last
breakpoint of the affected resource has a non-empty restricted delta
(the removed breakpoint), yet the single call the handler emits carries
empty added, removed and changed lists: the delta of the batch is not
carried. -/
theorem c7_delta_counterexample :
    specBatchRemoved [c7Removed] [] "file:///a" = [c7Removed]
    ∧ (DebugMainImpl.onDidChangeMarkersHandler [] "file:///a").added = []
    ∧ (DebugMainImpl.onDidChangeMarkersHandler [] "file:///a").removed = []
    ∧ (DebugMainImpl.onDidChangeMarkersHandler [] "file:///a").changed = []
    ∧ ([c7Removed] : List SourceBreakpoint) ≠ [] :=
  ⟨rfl, rfl, rfl, rfl, by simp⟩

/-- C7 (amended): per marker-change notification the bridge emits exactly
one call whose first argument is the wire form of the full current
breakpoint set, whose added and removed lists are always empty, and
whose changed list is the wire form of the current set restricted to the
affected resource (not the delta of the batch); the receiving side
stores the full snapshot. -/
theorem c7_amended_breakpoints_notification :
    ∀ (store : List SourceBreakpoint) (uri : String),
      (DebugMainImpl.onDidChangeMarkersHandler store uri).all =
        DebugMainImpl.toTheiaPluginApiBreakpoints store
      ∧ (DebugMainImpl.onDidChangeMarkersHandler store uri).added = []
      ∧ (DebugMainImpl.onDidChangeMarkersHandler store uri).removed = []
      ∧ (∀ w, w ∈ (DebugMainImpl.onDidChangeMarkersHandler store uri).changed ↔
          ∃ sb, sb ∈ store ∧ sb.uri = uri ∧ w = DebugMainImpl.wireOfSourceBreakpoint sb)
      ∧ ∀ (st : DebugExtState),
          (DebugExtImpl.breakpointsDidChange st
            (DebugMainImpl.onDidChangeMarkersHandler store uri).all
            (DebugMainImpl.onDidChangeMarkersHandler store uri).added
            (DebugMainImpl.onDidChangeMarkersHandler store uri).removed
            (DebugMainImpl.onDidChangeMarkersHandler store uri).changed).1.breakpoints =
          DebugMainImpl.toTheiaPluginApiBreakpoints store := by
  intro store uri
  refine ⟨rfl, rfl, rfl, ?_, fun st => rfl⟩
  intro w
  simp only [DebugMainImpl.onDidChangeMarkersHandler, breakpointStoreGet,
    DebugMainImpl.toTheiaPluginApiBreakpoints]
  constructor
  · intro hw
    rcases List.mem_map.mp hw with ⟨sb, hsb, hmap⟩
    rcases List.mem_filter.mp hsb with ⟨hmem, hdec⟩
    exact ⟨sb, hmem, of_decide_eq_true hdec, hmap.symm⟩
  · rintro ⟨sb, hmem, huri, hw⟩
    rw [hw]
    exact List.mem_map_of_mem _ (List.mem_filter.mpr ⟨hmem, decide_eq_true huri⟩)

/-- C8: evaluation of the code at the failing input.  With the sample
session stored under s1 and no active session, a sessionDidChange
notification for s1 leaves the state — in particular the
activeDebugSession field — unchanged, while the change event is fired
with the registry session: the pointer is not updated. -/
theorem c8_sessionDidChange_code_eval :
    DebugExtImpl.sessionDidChange sessionRegistryState (some "s1") =
      (sessionRegistryState, some sampleSession)
    ∧ sessionRegistryState.activeDebugSession = none
    ∧ (DebugExtImpl.sessionDidChange sessionRegistryState (some "s1")).1.activeDebugSession = none
    ∧ mapGet sessionRegistryState.debugSessions "s1" = some sampleSession :=
  ⟨rfl, rfl, rfl, rfl⟩

/-- C9: converting a host breakpoint to wire form and back preserves uri,
line and condition; a wire breakpoint with a location maps to an
internal breakpoint preserving uri, line and condition; and a wire
breakpoint without a location is excluded by the wire-to-internal
conversion. -/
theorem c9_breakpoint_roundtrip :
    (∀ sb : SourceBreakpoint,
      DebugMainImpl.toInternalBreakpoints (DebugMainImpl.toTheiaPluginApiBreakpoints [sb]) =
        [{ origin := { uri := sb.uri, enabled := true,
                       raw := { line := sb.raw.line, column := some (sb.raw.column.getD 0),
                                condition := sb.raw.condition,
                                hitCondition := sb.raw.hitCondition,
                                logMessage := sb.raw.logMessage } } }])
    ∧ (∀ (b : Breakpoint) (loc : Location),
      DebugMainImpl.toInternalBreakpoints [{ b with location := some loc }] =
        [{ origin := { uri := loc.uri.value, enabled := true,
                       raw := { line := loc.range.startLineNumber,
                                column := some loc.range.startColumn,
                                condition := b.condition, hitCondition := b.hitCondition,
                                logMessage := b.logMessage } } }])
    ∧ (∀ b : Breakpoint, DebugMainImpl.toInternalBreakpoints [{ b with location := none }] = []) :=
  ⟨fun _ => rfl, fun _ _ => rfl, fun _ => rfl⟩

/-- C10: when createDebugSession fails after the freshly minted session
has been stored — the ensureConnection step or the session start step
rejects — the call returns that error and the registry retains a session
under the fresh id, which was never returned to the caller. -/
theorem c10_create_failure_keeps_session :
    ∀ (st : DebugExtState) (contributionId : String) (c : DebugAdapterContribution)
      (cfg : DebugConfiguration) (freshId : String)
      (commandResult : Except JsError (Option DebugAdapterExecutable))
      (executable : DebugAdapterExecutable) (comm : CommunicationProvider) (e : JsError),
      mapGet st.debugAdapterContributions contributionId = some c →
      DebugExtImpl.getExecutable commandResult (mapGet st.packageContributions contributionId)
        c cfg = Except.ok executable →
      startDebugAdapter executable = Except.ok comm →
      (((DebugExtImpl.createDebugSession st contributionId cfg freshId commandResult
          (Except.error e) (Except.ok ())).2 = Except.error e
        ∧ ∃ s, mapGet (DebugExtImpl.createDebugSession st contributionId cfg freshId
            commandResult (Except.error e) (Except.ok ())).1.debugSessions freshId = some s
            ∧ s.id = freshId ∧ s.configuration = cfg)
      ∧ ((DebugExtImpl.createDebugSession st contributionId cfg freshId commandResult
          (Except.ok ()) (Except.error e)).2 = Except.error e
        ∧ ∃ s, mapGet (DebugExtImpl.createDebugSession st contributionId cfg freshId
            commandResult (Except.ok ()) (Except.error e)).1.debugSessions freshId = some s
            ∧ s.id = freshId ∧ s.configuration = cfg)) := by
  intro st contributionId c cfg freshId commandResult executable comm e hc hex hstart
  have h1 : DebugExtImpl.createDebugSession st contributionId cfg freshId commandResult
      (Except.error e) (Except.ok ()) =
      ({ st with
          debugSessions :=
            mapSet st.debugSessions freshId
              { id := freshId, configuration := cfg, communicationProvider := comm,
                customRequest := customRequestForwarder } },
       Except.error e) := by
    simp [DebugExtImpl.createDebugSession, hc, hex, hstart]
  have h2 : DebugExtImpl.createDebugSession st contributionId cfg freshId commandResult
      (Except.ok ()) (Except.error e) =
      ({ st with
          debugSessions :=
            mapSet st.debugSessions freshId
              { id := freshId, configuration := cfg, communicationProvider := comm,
                customRequest := customRequestForwarder } },
       Except.error e) := by
    simp [DebugExtImpl.createDebugSession, hc, hex, hstart]
  refine ⟨⟨?_, ?_⟩, ⟨?_, ?_⟩⟩
  · rw [h1]
  · rw [h1]
    exact ⟨_, mapGet_set_self _ _ _, rfl, rfl⟩
  · rw [h2]
  · rw [h2]
    exact ⟨_, mapGet_set_self _ _ _, rfl, rfl⟩

/-- C10 witness: the theorem applied to the sample state with a failing
ensureConnection step. -/
theorem c10_create_failure_witness :
    (DebugExtImpl.createDebugSession sampleExtState "cid" sampleConfig "sid-1"
      (Except.ok none) (Except.error (JsError.thrown 7)) (Except.ok ())).2 =
        Except.error (JsError.thrown 7)
    ∧ ∃ s, mapGet (DebugExtImpl.createDebugSession sampleExtState "cid" sampleConfig "sid-1"
        (Except.ok none) (Except.error (JsError.thrown 7)) (Except.ok ())).1.debugSessions
        "sid-1" = some s ∧ s.id = "sid-1" ∧ s.configuration = sampleConfig := by
  have h := c10_create_failure_keeps_session sampleExtState "cid" sampleExecutableContribution
    sampleConfig "sid-1" (Except.ok none) sampleExecutable
    ({ launch := .spawned "node" ["/adapter.js"] }) (JsError.thrown 7) rfl rfl rfl
  exact ⟨h.1.1, h.1.2⟩
